import Mathlib

/-!
Shallow embedding of the Selective-Repeat ARQ endpoint logic of `sr.c`
(sender entity A, receiver entity B), together with theorems checking the
specification's claims against it.

Modelling conventions:
* C `int` values are `Int` (sequence numbers, acknowledgement numbers,
  checksums); array indices that are always non-negative are `Nat`.
* The C `%` operator on `int` truncates towards zero; where an operand can
  be negative in principle we use `Int.tmod`, which has the same behaviour.
  `windowlast` starts at `-1`, so it is kept as an `Int`.
* The fixed-size C arrays `buffer[WINDOWSIZE]`, `acked[WINDOWSIZE]`,
  `recv_buffer[WINDOWSIZE]`, `received[WINDOWSIZE]` become functions
  `Nat → _`; every index written or read by the program is reduced
  mod `WINDOWSIZE` exactly as in the source.
* Calls to the environment (`tolayer3`, `tolayer5`, `starttimer`,
  `stoptimer`) are recorded as an event trace returned next to the new
  state.  `TRACE` printfs are pure logging and are not modelled.
* Static storage in C is zero-initialised, so the initial buffer contents
  are the all-zero packet.
-/

/-- WINDOWSIZE from sr.c: maximum number of buffered unacked packets. -/
def WINDOWSIZE : Nat := 6

/-- SEQSPACE from sr.c: the sequence number modulus. -/
def SEQSPACE : Nat := 12

/-- NOTINUSE from sr.c: sentinel for header fields not being used. -/
def NOTINUSE : Int := -1

/-- struct pkt from the emulator: the wire format. The payload is the
20-byte array `payload[20]`, modelled as a list of byte values. -/
structure Pkt where
  seqnum : Int
  acknum : Int
  checksum : Int
  payload : List Int
  deriving DecidableEq

/-- struct msg: an application-layer message (20 data bytes). -/
structure Msg where
  data : List Int
  deriving DecidableEq

/-- Calls made by the protocol code into the emulator, recorded as a trace. -/
inductive Event where
  | toLayer3A (p : Pkt)
  | toLayer3B (p : Pkt)
  | toLayer5B (payload : List Int)
  | startTimerA
  | stopTimerA
  deriving DecidableEq

/-- ComputeChecksum from sr.c: seqnum + acknum + the 20 payload bytes. -/
def ComputeChecksum (p : Pkt) : Int :=
  p.seqnum + p.acknum + (p.payload.take 20).sum

/-- IsCorrupted from sr.c: true iff the stored checksum disagrees with the
recomputed one. -/
def IsCorrupted (p : Pkt) : Bool :=
  p.checksum != ComputeChecksum p

/-- The all-zero packet: content of the zero-initialised static packet
arrays before first use. -/
def zeroPkt : Pkt :=
  { seqnum := 0, acknum := 0, checksum := 0, payload := List.replicate 20 0 }

/-- Sender (entity A) state: the static variables of sr.c, plus the
statistics counters the code increments. -/
structure AState where
  buffer : Nat → Pkt
  windowfirst : Nat
  windowlast : Int
  windowcount : Nat
  A_nextseqnum : Nat
  acked : Nat → Bool
  timer_running : Bool
  window_full : Nat
  packets_resent : Nat
  total_ACKs_received : Nat
  new_ACKs : Nat

/-- Sender state right after `A_init` (static storage zero-initialised,
then `A_init` runs). -/
def A_initState : AState :=
  { buffer := fun _ => zeroPkt
    windowfirst := 0
    windowlast := -1
    windowcount := 0
    A_nextseqnum := 0
    acked := fun _ => false
    timer_running := false
    window_full := 0
    packets_resent := 0
    total_ACKs_received := 0
    new_ACKs := 0 }

/-- A_output from sr.c: admit a message if the window is not full, build
and transmit the packet, start the timer when this is the only in-flight
packet; otherwise count the rejection. -/
def A_output (m : Msg) (st : AState) : AState × List Event :=
  if st.windowcount < WINDOWSIZE then
    let sendpkt0 : Pkt :=
      { seqnum := (st.A_nextseqnum : Int), acknum := NOTINUSE,
        checksum := 0, payload := m.data.take 20 }
    let sendpkt : Pkt := { sendpkt0 with checksum := ComputeChecksum sendpkt0 }
    let wl : Int := (st.windowlast + 1) % (WINDOWSIZE : Int)
    let st1 : AState :=
      { st with windowlast := wl
                buffer := Function.update st.buffer wl.toNat sendpkt
                acked := Function.update st.acked wl.toNat false
                windowcount := st.windowcount + 1 }
    let startNow : Bool := st1.windowcount == 1 && !st1.timer_running
    let st2 : AState :=
      { st1 with timer_running := if startNow then true else st1.timer_running
                 A_nextseqnum := (st.A_nextseqnum + 1) % SEQSPACE }
    (st2, Event.toLayer3A sendpkt :: (if startNow then [Event.startTimerA] else []))
  else
    ({ st with window_full := st.window_full + 1 }, [])

/-- The in-window test of A_input (sr.c lines 107-112): modulo-distance
comparison between the acked number and the seqnums at `windowfirst` and
`windowlast`.  C `%` on int truncates, hence `Int.tmod`. -/
def A_ackInWindow (st : AState) (a : Int) : Bool :=
  let seqfirst := (st.buffer st.windowfirst).seqnum
  let seqlast := (st.buffer st.windowlast.toNat).seqnum
  let dist_first := (a - seqfirst + (SEQSPACE : Int)).tmod (SEQSPACE : Int)
  let dist_last := (seqlast - seqfirst + (SEQSPACE : Int)).tmod (SEQSPACE : Int)
  decide (dist_first ≤ dist_last)

/-- The marking scan of A_input (sr.c lines 124-134): the first index,
scanning `windowfirst, windowfirst+1, …` circularly, holding an unacked
packet whose seqnum equals the acked number. -/
def findMatch (st : AState) (a : Int) : Option Nat :=
  ((List.range WINDOWSIZE).find? (fun i =>
      ((st.buffer ((st.windowfirst + i) % WINDOWSIZE)).seqnum == a) &&
      !(st.acked ((st.windowfirst + i) % WINDOWSIZE)))).map
    (fun i => (st.windowfirst + i) % WINDOWSIZE)

/-- Apply the result of the marking scan to the acked flags. -/
def markAck (acked : Nat → Bool) (fm : Option Nat) : Nat → Bool :=
  match fm with
  | some j => Function.update acked j true
  | none => acked

/-- The sliding loop of A_input (sr.c lines 156-163): starting from
`windowfirst` with `windowcount` occupied slots, advance while the front
slot is acked.  Returns (new windowfirst, new windowcount, packets_slid). -/
def slideLoop (a : Nat → Bool) : Nat → Nat → Nat × Nat × Nat
  | wf, 0 => (wf, 0, 0)
  | wf, c + 1 =>
    if a wf then
      let r := slideLoop a ((wf + 1) % WINDOWSIZE) c
      (r.1, r.2.1, r.2.2 + 1)
    else
      (wf, c + 1, 0)

/-- The acked-reset loop of A_input (sr.c lines 166-169), unrolled from the
last iteration: clears the flags of the `slid` slots just vacated. -/
def resetAckedGo (acked : Nat → Bool) (wf slid : Nat) : Nat → (Nat → Bool)
  | 0 => acked
  | i + 1 =>
    Function.update (resetAckedGo acked wf slid i)
      ((((wf : Int) - slid + i + WINDOWSIZE) % (WINDOWSIZE : Int)).toNat) false

/-- The acked-reset loop of A_input (sr.c lines 166-169). -/
def resetAcked (acked : Nat → Bool) (wf slid : Nat) : Nat → Bool :=
  resetAckedGo acked wf slid slid

/-- The body of A_input once an uncorrupted in-window ACK has been
recognised (sr.c lines 119-188), parameterised by the already-marked acked
flags: stop the timer if the front packet is now acked, slide, reset the
vacated flags, and restart the timer if unacked packets remain. -/
def A_handleAckCore (st : AState) (acked1 : Nat → Bool) : AState × List Event :=
  let stopNow : Bool := st.timer_running && acked1 st.windowfirst
  let tr1 : Bool := if stopNow then false else st.timer_running
  let ev1 : List Event := if stopNow then [Event.stopTimerA] else []
  let r := slideLoop acked1 st.windowfirst st.windowcount
  let acked2 := resetAcked acked1 r.1 r.2.2
  let startNow : Bool := (decide (0 < r.2.1)) && !(acked2 r.1) && !tr1
  let tr2 : Bool := if startNow then true else tr1
  let ev2 : List Event := if startNow then [Event.startTimerA] else []
  ({ st with new_ACKs := st.new_ACKs + 1
             acked := acked2
             windowfirst := r.1
             windowcount := r.2.1
             timer_running := tr2 },
   ev1 ++ ev2)

/-- A_input from sr.c: ignore corrupted ACKs; count every uncorrupted ACK;
with a non-empty window classify it, and process in-window ACKs. -/
def A_input (p : Pkt) (st : AState) : AState × List Event :=
  if IsCorrupted p = false then
    let st0 : AState := { st with total_ACKs_received := st.total_ACKs_received + 1 }
    if st0.windowcount ≠ 0 then
      if A_ackInWindow st0 p.acknum = true then
        A_handleAckCore st0 (markAck st0.acked (findMatch st0 p.acknum))
      else (st0, [])
    else (st0, [])
  else (st, [])

/-- A_timerinterrupt from sr.c: if unacked packets remain, retransmit the
packet at `windowfirst`, count it, and restart the timer (stopping the old
one first when it is running); otherwise do nothing. -/
def A_timerinterrupt (st : AState) : AState × List Event :=
  if 0 < st.windowcount ∧ st.acked st.windowfirst = false then
    ({ st with packets_resent := st.packets_resent + 1, timer_running := true },
     Event.toLayer3A (st.buffer st.windowfirst) ::
       ((if st.timer_running then [Event.stopTimerA] else []) ++ [Event.startTimerA]))
  else (st, [])

/-- Sender states reachable from `A_init` by any sequence of entry-point
calls. -/
inductive Reachable : AState → Prop where
  | init : Reachable A_initState
  | output (m : Msg) (st : AState) : Reachable st → Reachable (A_output m st).1
  | input (p : Pkt) (st : AState) : Reachable st → Reachable (A_input p st).1
  | timer (st : AState) : Reachable st → Reachable (A_timerinterrupt st).1

/-- Inductive invariant of the sender state: the window count is bounded,
`windowfirst` is a valid index, `windowlast` trails the occupied range,
the front slot of a non-empty window is never left acked, and the timer
runs exactly while the window is non-empty. -/
def AInv (st : AState) : Prop :=
  st.windowcount ≤ WINDOWSIZE ∧
  st.windowfirst < WINDOWSIZE ∧
  (st.windowlast + 1) % (WINDOWSIZE : Int) =
    ((st.windowfirst : Int) + (st.windowcount : Int)) % (WINDOWSIZE : Int) ∧
  (0 < st.windowcount → st.acked st.windowfirst = false) ∧
  st.timer_running = decide (0 < st.windowcount)

/-- Receiver (entity B) state: the static variables of sr.c. -/
structure BState where
  expectedseqnum : Nat
  B_nextseqnum : Nat
  recv_buffer : Nat → Pkt
  received : Nat → Bool
  packets_received : Nat

/-- Receiver state right after `B_init`. -/
def B_initState : BState :=
  { expectedseqnum := 0
    B_nextseqnum := 1
    recv_buffer := fun _ => zeroPkt
    received := fun _ => false
    packets_received := 0 }

/-- The receiver in-window test of B_input (sr.c lines 252-255): literal
interval comparison between `expectedseqnum` and
`(expectedseqnum + WINDOWSIZE - 1) % SEQSPACE`, split on wraparound. -/
def B_inWindow (st : BState) (s : Int) : Bool :=
  let ws : Int := (st.expectedseqnum : Int)
  let we : Int := (((st.expectedseqnum + WINDOWSIZE - 1) % SEQSPACE : Nat) : Int)
  (decide (ws ≤ we) && decide (s ≥ ws) && decide (s ≤ we)) ||
  (decide (ws > we) && (decide (s ≥ ws) || decide (s ≤ we)))

/-- The delivery scan of B_input (sr.c lines 288-298): first buffered slot
holding the packet with the currently expected sequence number. -/
def deliverFind (st : BState) : Option Nat :=
  (List.range WINDOWSIZE).find? (fun i =>
    st.received i && ((st.recv_buffer i).seqnum == (st.expectedseqnum : Int)))

/-- The delivery loop of B_input (sr.c lines 285-302): deliver contiguous
packets in order, at most `WINDOWSIZE` of them (`max_deliveries`). -/
def deliverLoop : Nat → BState → BState × List Event
  | 0, st => (st, [])
  | fuel + 1, st =>
    match deliverFind st with
    | some i =>
      let st1 : BState :=
        { st with received := Function.update st.received i false
                  expectedseqnum := (st.expectedseqnum + 1) % SEQSPACE }
      let d := deliverLoop fuel st1
      (d.1, Event.toLayer5B (st.recv_buffer i).payload :: d.2)
    | none => (st, [])

/-- B_input from sr.c: corrupted and out-of-window packets are discarded
with no further action; in-window packets are stored in the first free
slot (if any), acknowledged with their own seqnum, and then the in-order
delivery loop runs. -/
def B_input (p : Pkt) (st : BState) : BState × List Event :=
  if IsCorrupted p = false then
    if B_inWindow st p.seqnum = true then
      match (List.range WINDOWSIZE).find? (fun i => !st.received i) with
      | some bi =>
        let st1 : BState :=
          { st with recv_buffer := Function.update st.recv_buffer bi p
                    received := Function.update st.received bi true
                    packets_received := st.packets_received + 1 }
        let sendpkt0 : Pkt :=
          { seqnum := (st1.B_nextseqnum : Int), acknum := p.seqnum,
            checksum := 0, payload := List.replicate 20 48 }
        let sendpkt : Pkt := { sendpkt0 with checksum := ComputeChecksum sendpkt0 }
        let st2 : BState := { st1 with B_nextseqnum := (st1.B_nextseqnum + 1) % 2 }
        let d := deliverLoop WINDOWSIZE st2
        (d.1, Event.toLayer3B sendpkt :: d.2)
      | none => (st, [])
    else (st, [])
  else (st, [])

/-- First event of a trace when it is an acknowledgment transmission:
the acknum it carries. -/
def headAck : List Event → Option Int
  | Event.toLayer3B q :: _ => some q.acknum
  | _ => none

-- Concrete packets, messages and states used by witnesses and
-- counterexamples.

/-- A valid data packet with sequence number 0 and payload of twenty 1s. -/
def dpkt0 : Pkt :=
  { seqnum := 0, acknum := 0, checksum := 20, payload := List.replicate 20 1 }

/-- A valid data packet with sequence number 2. -/
def dpkt2 : Pkt :=
  { seqnum := 2, acknum := 0, checksum := 22, payload := List.replicate 20 1 }

/-- A valid data packet with sequence number 1 and all-zero payload. -/
def p1pkt : Pkt :=
  { seqnum := 1, acknum := 0, checksum := 1, payload := List.replicate 20 0 }

/-- A corrupted packet: stored checksum 1, recomputed checksum 0. -/
def corruptPkt : Pkt :=
  { seqnum := 0, acknum := 0, checksum := 1, payload := List.replicate 20 0 }

/-- Another corrupted packet: stored checksum 2, recomputed checksum 0. -/
def corruptPkt2 : Pkt :=
  { seqnum := 0, acknum := 0, checksum := 2, payload := List.replicate 20 0 }

/-- A valid ACK packet acknowledging sequence number 0. -/
def ap0 : Pkt :=
  { seqnum := 0, acknum := 0, checksum := 0, payload := List.replicate 20 0 }

/-- A valid ACK packet acknowledging sequence number 1. -/
def ap1 : Pkt :=
  { seqnum := 0, acknum := 1, checksum := 1, payload := List.replicate 20 0 }

/-- A valid ACK packet acknowledging sequence number 5. -/
def ap5 : Pkt :=
  { seqnum := 0, acknum := 5, checksum := 5, payload := List.replicate 20 0 }

/-- A concrete application message (twenty 1s). -/
def msg0 : Msg := { data := List.replicate 20 1 }

/-- Another concrete application message (twenty 2s). -/
def msg1 : Msg := { data := List.replicate 20 2 }

/-- Sender state after submitting one message from the initial state. -/
def stW1 : AState := (A_output msg0 A_initState).1

/-- Sender state after submitting two messages from the initial state. -/
def stW2 : AState := (A_output msg1 stW1).1

/-- A sender state whose window is full. -/
def stAFull : AState :=
  { A_initState with windowcount := 6, windowlast := 5, A_nextseqnum := 6,
                     timer_running := true }

/-- Receiver state after the packet with sequence number 0 has been
received and delivered. -/
def BAfter0 : BState := (B_input dpkt0 B_initState).1

/-- A receiver state expecting sequence number 3 next. -/
def st3B : BState := { B_initState with expectedseqnum := 3 }

/-- A receiver state in which every buffer slot is marked received. -/
def stBFull : BState := { B_initState with received := fun _ => true }

-- Helper lemmas about the sliding loop and the acked-flag bookkeeping.

theorem slideLoop_notacked (a : Nat → Bool) (wf c : Nat) (h : a wf = false) :
    slideLoop a wf c = (wf, c, 0) := by
  cases c with
  | zero => rfl
  | succ c => simp only [slideLoop, h, Bool.false_eq_true, if_false]

theorem slideLoop_spec (a : Nat → Bool) :
    ∀ (c wf : Nat), wf < WINDOWSIZE →
      (slideLoop a wf c).2.1 + (slideLoop a wf c).2.2 = c ∧
      (slideLoop a wf c).1 = (wf + (slideLoop a wf c).2.2) % WINDOWSIZE ∧
      (0 < (slideLoop a wf c).2.1 → a (slideLoop a wf c).1 = false) := by
  intro c
  induction c with
  | zero =>
    intro wf hwf
    refine ⟨rfl, ?_, ?_⟩
    · show wf = (wf + 0) % WINDOWSIZE
      rw [Nat.add_zero, Nat.mod_eq_of_lt hwf]
    · intro hcontra
      exact absurd hcontra (Nat.lt_irrefl 0)
  | succ c ih =>
    intro wf hwf
    cases hA : a wf with
    | true =>
      have hw1 : (wf + 1) % WINDOWSIZE < WINDOWSIZE :=
        Nat.mod_lt _ (by decide)
      obtain ⟨ih1, ih2, ih3⟩ := ih ((wf + 1) % WINDOWSIZE) hw1
      simp only [slideLoop, hA, if_true]
      refine ⟨by omega, ?_, ih3⟩
      rw [ih2]
      simp only [WINDOWSIZE]
      omega
    | false =>
      rw [slideLoop_notacked a wf (c + 1) hA]
      refine ⟨rfl, ?_, fun _ => hA⟩
      show wf = (wf + 0) % WINDOWSIZE
      rw [Nat.add_zero, Nat.mod_eq_of_lt hwf]

theorem resetAckedGo_true (acked : Nat → Bool) (wf slid : Nat) :
    ∀ (i j : Nat), resetAckedGo acked wf slid i j = true → acked j = true := by
  intro i
  induction i with
  | zero => intro j h; exact h
  | succ i ih =>
    intro j h
    have h' : Function.update (resetAckedGo acked wf slid i)
        ((((wf : Int) - slid + i + WINDOWSIZE) % (WINDOWSIZE : Int)).toNat) false j
        = true := h
    rw [Function.update_apply] at h'
    by_cases hj : j = (((wf : Int) - slid + i + WINDOWSIZE) % (WINDOWSIZE : Int)).toNat
    · rw [if_pos hj] at h'
      exact absurd h' (by decide)
    · rw [if_neg hj] at h'
      exact ih j h'

theorem resetAcked_true (acked : Nat → Bool) (wf slid j : Nat)
    (h : resetAcked acked wf slid j = true) : acked j = true :=
  resetAckedGo_true acked wf slid slid j h

theorem resetAcked_zero (acked : Nat → Bool) (wf : Nat) :
    resetAcked acked wf 0 = acked := rfl

theorem findMatch_spec (st : AState) (a : Int) (j : Nat)
    (h : findMatch st a = some j) :
    (st.buffer j).seqnum = a ∧ st.acked j = false := by
  rw [findMatch] at h
  cases hf : (List.range WINDOWSIZE).find? (fun i =>
      ((st.buffer ((st.windowfirst + i) % WINDOWSIZE)).seqnum == a) &&
      !(st.acked ((st.windowfirst + i) % WINDOWSIZE))) with
  | none => rw [hf] at h; simp at h
  | some i =>
    rw [hf] at h
    simp only [Option.map_some'] at h
    have hp := List.find?_some hf
    simp only [Bool.and_eq_true, beq_iff_eq, Bool.not_eq_true'] at hp
    rw [← Option.some.inj h]
    exact hp

-- Preservation of the sender invariant under each entry point.

theorem ainv_init : AInv A_initState := by
  refine ⟨by decide, by decide, by decide, ?_, by decide⟩
  intro h
  exact absurd h (by decide)

theorem ainv_output (m : Msg) (st : AState) (h : AInv st) :
    AInv (A_output m st).1 := by
  obtain ⟨h1, h2, h3, h4, h5⟩ := h
  by_cases hw : st.windowcount < WINDOWSIZE
  · simp only [A_output, if_pos hw]
    refine ⟨?_, ?_, ?_, ?_, ?_⟩
    · show st.windowcount + 1 ≤ WINDOWSIZE
      simp only [WINDOWSIZE] at hw ⊢
      omega
    · show st.windowfirst < WINDOWSIZE
      exact h2
    · show ((st.windowlast + 1) % (WINDOWSIZE : Int) + 1) % (WINDOWSIZE : Int) =
        ((st.windowfirst : Int) + ((st.windowcount + 1 : Nat) : Int)) % (WINDOWSIZE : Int)
      simp only [WINDOWSIZE] at h3 ⊢
      push_cast at h3 ⊢
      omega
    · intro _
      show Function.update st.acked ((st.windowlast + 1) % (WINDOWSIZE : Int)).toNat false
        st.windowfirst = false
      rw [Function.update_apply]
      by_cases heq : st.windowfirst = ((st.windowlast + 1) % (WINDOWSIZE : Int)).toNat
      · rw [if_pos heq]
      · rw [if_neg heq]
        rcases Nat.eq_zero_or_pos st.windowcount with h0 | hpos
        · exfalso
          apply heq
          simp only [WINDOWSIZE] at h3 h2 ⊢
          omega
        · exact h4 hpos
    · show (if (st.windowcount + 1 == 1 && !st.timer_running) = true then true
          else st.timer_running) = decide (0 < st.windowcount + 1)
      rcases Nat.eq_zero_or_pos st.windowcount with h0 | hpos
      · have ht : st.timer_running = false := by rw [h5, h0]; rfl
        rw [h0, ht]
        decide
      · have ht : st.timer_running = true := by
          rw [h5]
          exact decide_eq_true hpos
        have hne : (st.windowcount + 1 == 1) = false := by
          rw [beq_eq_false_iff_ne]
          omega
        rw [hne, ht]
        simp
  · simp only [A_output, if_neg hw]
    exact ⟨h1, h2, h3, h4, h5⟩

theorem ainv_handleAckCore (st : AState) (a1 : Nat → Bool) (h : AInv st)
    (hc : 0 < st.windowcount) : AInv (A_handleAckCore st a1).1 := by
  obtain ⟨h1, h2, h3, h4, h5⟩ := h
  obtain ⟨hs1, hs2, hs3⟩ := slideLoop_spec a1 st.windowcount st.windowfirst h2
  have htr : st.timer_running = true := by
    rw [h5]
    exact decide_eq_true hc
  have hacked2 : 0 < (slideLoop a1 st.windowfirst st.windowcount).2.1 →
      resetAcked a1 (slideLoop a1 st.windowfirst st.windowcount).1
        (slideLoop a1 st.windowfirst st.windowcount).2.2
        (slideLoop a1 st.windowfirst st.windowcount).1 = false := by
    intro hpos
    have hfalse := hs3 hpos
    cases hr : resetAcked a1 (slideLoop a1 st.windowfirst st.windowcount).1
        (slideLoop a1 st.windowfirst st.windowcount).2.2
        (slideLoop a1 st.windowfirst st.windowcount).1 with
    | false => rfl
    | true =>
      rw [resetAcked_true a1 _ _ _ hr] at hfalse
      exact absurd hfalse (by decide)
  refine ⟨?_, ?_, ?_, ?_, ?_⟩
  · show (slideLoop a1 st.windowfirst st.windowcount).2.1 ≤ WINDOWSIZE
    omega
  · show (slideLoop a1 st.windowfirst st.windowcount).1 < WINDOWSIZE
    rw [hs2]
    simp only [WINDOWSIZE]
    omega
  · show (st.windowlast + 1) % (WINDOWSIZE : Int) =
      (((slideLoop a1 st.windowfirst st.windowcount).1 : Int) +
        ((slideLoop a1 st.windowfirst st.windowcount).2.1 : Int)) % (WINDOWSIZE : Int)
    rw [hs2]
    simp only [WINDOWSIZE] at h3 ⊢
    push_cast at h3 ⊢
    omega
  · intro hpos
    exact hacked2 hpos
  · show (if ((decide (0 < (slideLoop a1 st.windowfirst st.windowcount).2.1)) &&
        !(resetAcked a1 (slideLoop a1 st.windowfirst st.windowcount).1
            (slideLoop a1 st.windowfirst st.windowcount).2.2
            (slideLoop a1 st.windowfirst st.windowcount).1) &&
        !(if (st.timer_running && a1 st.windowfirst) = true then false
          else st.timer_running)) = true then true
        else (if (st.timer_running && a1 st.windowfirst) = true then false
          else st.timer_running)) =
      decide (0 < (slideLoop a1 st.windowfirst st.windowcount).2.1)
    rw [htr]
    cases hA : a1 st.windowfirst with
    | true =>
      rcases Nat.eq_zero_or_pos (slideLoop a1 st.windowfirst st.windowcount).2.1
        with hz | hpos
      · rw [hz]
        simp
      · rw [hacked2 hpos, decide_eq_true hpos]
        simp
    | false =>
      rw [slideLoop_notacked a1 st.windowfirst st.windowcount hA]
      simp [decide_eq_true hc]

theorem ainv_input (p : Pkt) (st : AState) (h : AInv st) :
    AInv (A_input p st).1 := by
  simp only [A_input]
  split
  · split
    · split
      · exact ainv_handleAckCore _ _ h
          (Nat.pos_of_ne_zero (by assumption))
      · exact h
    · exact h
  · exact h

theorem ainv_timer (st : AState) (h : AInv st) : AInv (A_timerinterrupt st).1 := by
  obtain ⟨h1, h2, h3, h4, h5⟩ := h
  simp only [A_timerinterrupt]
  split
  · next hg =>
    exact ⟨h1, h2, h3, h4, by
      show true = decide (0 < st.windowcount)
      rw [decide_eq_true hg.1]⟩
  · exact ⟨h1, h2, h3, h4, h5⟩

theorem reachable_AInv {st : AState} (h : Reachable st) : AInv st := by
  induction h with
  | init => exact ainv_init
  | output m st _ ih => exact ainv_output m st ih
  | input p st _ ih => exact ainv_input p st ih
  | timer st _ ih => exact ainv_timer st ih

-- Unfolding lemmas for the three outcomes of A_input on an uncorrupted ACK.

theorem A_input_empty (p : Pkt) (st : AState) (hnc : IsCorrupted p = false)
    (h0 : st.windowcount = 0) :
    A_input p st = ({ st with total_ACKs_received := st.total_ACKs_received + 1 }, []) := by
  simp only [A_input]
  rw [if_pos hnc]
  rw [if_neg (show ¬(({ st with total_ACKs_received := st.total_ACKs_received + 1 }
    : AState).windowcount ≠ 0) from not_ne_iff.mpr h0)]

theorem A_input_outOfWindow (p : Pkt) (st : AState) (hnc : IsCorrupted p = false)
    (hc : st.windowcount ≠ 0) (hfalse : A_ackInWindow st p.acknum = false) :
    A_input p st = ({ st with total_ACKs_received := st.total_ACKs_received + 1 }, []) := by
  simp only [A_input]
  rw [if_pos hnc]
  rw [if_pos (show (({ st with total_ACKs_received := st.total_ACKs_received + 1 }
    : AState).windowcount ≠ 0) from hc)]
  rw [if_neg (show ¬(A_ackInWindow ({ st with
      total_ACKs_received := st.total_ACKs_received + 1 }) p.acknum = true) from by
    rw [show A_ackInWindow ({ st with
      total_ACKs_received := st.total_ACKs_received + 1 }) p.acknum = false from hfalse]
    exact Bool.false_ne_true)]

theorem A_input_inWindow (p : Pkt) (st : AState) (hnc : IsCorrupted p = false)
    (hc : st.windowcount ≠ 0) (hin : A_ackInWindow st p.acknum = true) :
    A_input p st = A_handleAckCore
      ({ st with total_ACKs_received := st.total_ACKs_received + 1 })
      (markAck st.acked (findMatch st p.acknum)) := by
  simp only [A_input]
  rw [if_pos hnc]
  rw [if_pos (show (({ st with total_ACKs_received := st.total_ACKs_received + 1 }
    : AState).windowcount ≠ 0) from hc)]
  rw [if_pos (show (A_ackInWindow ({ st with
    total_ACKs_received := st.total_ACKs_received + 1 }) p.acknum = true) from hin)]
  rfl

theorem A_handleAckCore_noslide (st : AState) (a1 : Nat → Bool)
    (hA : a1 st.windowfirst = false) (htr : st.timer_running = true) :
    A_handleAckCore st a1 =
      ({ st with new_ACKs := st.new_ACKs + 1, acked := a1 }, []) := by
  simp only [A_handleAckCore, hA, htr,
    slideLoop_notacked a1 st.windowfirst st.windowcount hA, resetAcked_zero]
  simp

/-- C1, counterexample to the claim as stated: the claim says reprocessing a
packet the receiver has already delivered "only (re-)triggers an
acknowledgment".  After the packet with seqnum 0 is received and delivered
(expectedseqnum has advanced to 1), reprocessing the identical retransmitted
copy produces an empty event trace: no acknowledgment is sent (and also no
second delivery). -/
theorem C1_counterexample :
    BAfter0.expectedseqnum = 1 ∧ (B_input dpkt0 BAfter0).2 = [] := by decide

/-- C1, amended: processing a retransmitted copy of a packet the receiver
has already delivered (its seqnum now lies outside the receive window)
never causes a second application-layer delivery; but it does not trigger
an acknowledgment either — B_input silently discards any uncorrupted
out-of-window packet, leaving the state unchanged and producing no events. -/
theorem C1_theorem (p : Pkt) (st : BState) (hnc : IsCorrupted p = false)
    (hout : B_inWindow st p.seqnum = false) :
    B_input p st = (st, []) := by
  simp [B_input, hnc, hout]

/-- C1, witness: the retransmitted seqnum-0 packet after its delivery is a
concrete instance of the amended claim. -/
theorem C1_witness :
    IsCorrupted dpkt0 = false ∧ B_inWindow BAfter0 dpkt0.seqnum = false ∧
      B_input dpkt0 BAfter0 = (BAfter0, []) :=
  ⟨by decide, by decide, C1_theorem dpkt0 BAfter0 (by decide) (by decide)⟩

/-- C2, counterexample to the claim as stated: the claim says a corrupted
packet makes B_input send an acknowledgment carrying
`expectedSeq − 1 (mod SEQSPACE)`.  For a concrete corrupted packet arriving
at the freshly initialised receiver the event trace is empty: no
acknowledgment whatsoever is sent. -/
theorem C2_counterexample :
    IsCorrupted corruptPkt = true ∧ (B_input corruptPkt B_initState).2 = [] := by
  decide

/-- C2, amended: for every corrupted packet arriving at the receiver,
B_input sends nothing at all, does not buffer the packet, does not deliver
anything, and does not change expectedSeq — the packet is silently
discarded and the state is untouched. -/
theorem C2_theorem (p : Pkt) (st : BState) (hcor : IsCorrupted p = true) :
    B_input p st = (st, []) := by
  simp [B_input, hcor]

/-- C2, witness: a concrete corrupted packet at the initial receiver state. -/
theorem C2_witness :
    IsCorrupted corruptPkt2 = true ∧ B_input corruptPkt2 B_initState = (B_initState, []) :=
  ⟨by decide, C2_theorem corruptPkt2 B_initState (by decide)⟩

/-- C3, counterexample to the claim as stated: the claim says an
uncorrupted below-window packet (already delivered) is always acknowledged
with its own seqnum.  With the receiver expecting seqnum 3, the uncorrupted
packet with seqnum 1 is below the window: the code classifies it outside
the window and produces an empty event trace — no acknowledgment. -/
theorem C3_counterexample :
    IsCorrupted p1pkt = false ∧ B_inWindow st3B p1pkt.seqnum = false ∧
      (B_input p1pkt st3B).2 = [] := by decide

/-- C3, amended: for every uncorrupted packet whose seqnum is in-window,
arriving while at least one receive-buffer slot is free, B_input sends an
acknowledgment whose acknum equals the packet's own seqnum (this holds even
for a duplicate, because the code does not check for duplicates);
below-window packets, by contrast, are discarded without acknowledgment. -/
theorem C3_theorem (p : Pkt) (st : BState) (hnc : IsCorrupted p = false)
    (hin : B_inWindow st p.seqnum = true)
    (hfree : ((List.range WINDOWSIZE).find? (fun i => !st.received i)).isSome = true) :
    headAck (B_input p st).2 = some p.seqnum := by
  obtain ⟨bi, hbi⟩ := Option.isSome_iff_exists.mp hfree
  simp [B_input, hnc, hin, hbi, headAck]

/-- C3, witness: the in-window packet with seqnum 2 at the initial receiver
state gets acknowledged with acknum 2. -/
theorem C3_witness :
    IsCorrupted dpkt2 = false ∧ B_inWindow B_initState dpkt2.seqnum = true ∧
      ((List.range WINDOWSIZE).find? (fun i => !B_initState.received i)).isSome = true ∧
      headAck (B_input dpkt2 B_initState).2 = some dpkt2.seqnum :=
  ⟨by decide, by decide, by decide,
    C3_theorem dpkt2 B_initState (by decide) (by decide) (by decide)⟩

/-- C10: for every uncorrupted in-window packet arriving while every
receive-buffer slot is occupied (all received flags true), B_input drops
the packet with no observable effect: no acknowledgment, no buffering, no
delivery, and expectedseqnum unchanged. -/
theorem C10_theorem (p : Pkt) (st : BState) (hnc : IsCorrupted p = false)
    (hin : B_inWindow st p.seqnum = true)
    (hfull : ∀ i < WINDOWSIZE, st.received i = true) :
    B_input p st = (st, []) := by
  have hfind : (List.range WINDOWSIZE).find? (fun i => !st.received i) = none := by
    rw [List.find?_eq_none]
    intro x hx
    simp [hfull x (List.mem_range.mp hx)]
  simp [B_input, hnc, hin, hfind]

/-- C10, witness: the in-window packet with seqnum 0 at a receiver whose
buffer is completely occupied. -/
theorem C10_witness :
    IsCorrupted dpkt0 = false ∧ B_inWindow stBFull dpkt0.seqnum = true ∧
      (∀ i < WINDOWSIZE, stBFull.received i = true) ∧
      B_input dpkt0 stBFull = (stBFull, []) :=
  ⟨by decide, by decide, by decide,
    C10_theorem dpkt0 stBFull (by decide) (by decide) (by decide)⟩

/-- C4: for every timer expiry at the sender in a reachable state, if the
window is non-empty A_timerinterrupt retransmits exactly one packet — the
oldest unacknowledged one, stored at windowfirst — increments the
retransmission counter and restarts the timer; if the window is empty the
interrupt is a no-op (no transmission, no counter change). -/
theorem C4_theorem (st : AState) (h : Reachable st) :
    (st.windowcount = 0 → A_timerinterrupt st = (st, [])) ∧
    (0 < st.windowcount →
      A_timerinterrupt st =
        ({ st with packets_resent := st.packets_resent + 1, timer_running := true },
         Event.toLayer3A (st.buffer st.windowfirst) ::
           ((if st.timer_running then [Event.stopTimerA] else []) ++
             [Event.startTimerA]))) := by
  have hinv := reachable_AInv h
  constructor
  · intro h0
    simp only [A_timerinterrupt]
    rw [if_neg (by simp [h0])]
  · intro hpos
    have hack := hinv.2.2.2.1 hpos
    simp only [A_timerinterrupt]
    rw [if_pos ⟨hpos, hack⟩]

/-- C4, witness: the reachable single-packet window state retransmits its
only packet on timeout. -/
theorem C4_witness :
    Reachable stW1 ∧ 0 < stW1.windowcount ∧
      A_timerinterrupt stW1 =
        ({ stW1 with packets_resent := stW1.packets_resent + 1, timer_running := true },
         Event.toLayer3A (stW1.buffer stW1.windowfirst) ::
           ((if stW1.timer_running then [Event.stopTimerA] else []) ++
             [Event.startTimerA])) :=
  ⟨Reachable.output msg0 A_initState Reachable.init, by decide,
    (C4_theorem stW1 (Reachable.output msg0 A_initState Reachable.init)).2 (by decide)⟩

/-- C5: for every uncorrupted ACK processed with a non-empty window, the
code classifies it in-window exactly when
`(acknum − seqAtFirst + SEQSPACE) mod SEQSPACE ≤
 (seqAtLast − seqAtFirst + SEQSPACE) mod SEQSPACE` (mathematical mod,
under the range conditions the real states satisfy), and every ACK
classified out-of-window leaves the sender state unchanged apart from the
received-ACKs counter: no slot is marked, no slide happens, no timer
change, no event is emitted. -/
theorem C5_theorem (p : Pkt) (st : AState)
    (hnc : IsCorrupted p = false) (hc : st.windowcount ≠ 0)
    (ha : 0 ≤ p.acknum)
    (hf1 : (st.buffer st.windowfirst).seqnum < (SEQSPACE : Int))
    (hl0 : 0 ≤ (st.buffer st.windowlast.toNat).seqnum) :
    (A_ackInWindow st p.acknum = true ↔
      (p.acknum - (st.buffer st.windowfirst).seqnum + (SEQSPACE : Int)) %
          (SEQSPACE : Int) ≤
        ((st.buffer st.windowlast.toNat).seqnum - (st.buffer st.windowfirst).seqnum +
            (SEQSPACE : Int)) % (SEQSPACE : Int)) ∧
    (A_ackInWindow st p.acknum = false →
      A_input p st =
        ({ st with total_ACKs_received := st.total_ACKs_received + 1 }, [])) := by
  constructor
  · simp only [A_ackInWindow, decide_eq_true_eq]
    have e1 : (p.acknum - (st.buffer st.windowfirst).seqnum + (SEQSPACE : Int)).tmod
          (SEQSPACE : Int) =
        (p.acknum - (st.buffer st.windowfirst).seqnum + (SEQSPACE : Int)) %
          (SEQSPACE : Int) :=
      Int.tmod_eq_emod (by omega) (by omega)
    have e2 : ((st.buffer st.windowlast.toNat).seqnum -
            (st.buffer st.windowfirst).seqnum + (SEQSPACE : Int)).tmod (SEQSPACE : Int) =
        ((st.buffer st.windowlast.toNat).seqnum -
            (st.buffer st.windowfirst).seqnum + (SEQSPACE : Int)) % (SEQSPACE : Int) :=
      Int.tmod_eq_emod (by omega) (by omega)
    rw [e1, e2]
  · intro hfalse
    exact A_input_outOfWindow p st hnc hc hfalse

/-- C5, witness: in the reachable one-packet state (seqnums 0 at both
window ends) the ACK for seqnum 5 is classified out-of-window and is
ignored. -/
theorem C5_witness :
    (IsCorrupted ap5 = false ∧ stW1.windowcount ≠ 0 ∧ 0 ≤ ap5.acknum ∧
        (stW1.buffer stW1.windowfirst).seqnum < (SEQSPACE : Int) ∧
        0 ≤ (stW1.buffer stW1.windowlast.toNat).seqnum) ∧
      ((A_ackInWindow stW1 ap5.acknum = true ↔
          (ap5.acknum - (stW1.buffer stW1.windowfirst).seqnum + (SEQSPACE : Int)) %
              (SEQSPACE : Int) ≤
            ((stW1.buffer stW1.windowlast.toNat).seqnum -
                (stW1.buffer stW1.windowfirst).seqnum + (SEQSPACE : Int)) %
              (SEQSPACE : Int)) ∧
        (A_ackInWindow stW1 ap5.acknum = false →
          A_input ap5 stW1 =
            ({ stW1 with total_ACKs_received := stW1.total_ACKs_received + 1 }, []))) :=
  ⟨⟨by decide, by decide, by decide, by decide, by decide⟩,
    C5_theorem ap5 stW1 (by decide) (by decide) (by decide) (by decide) (by decide)⟩

/-- C6: in every reachable state, an uncorrupted in-window ACK whose
number is not the oldest buffered packet's seqnum marks the matching slot
acknowledged but does not advance windowfirst, does not decrement
windowcount, does not change the timer, and emits no event — the window
slides only while the oldest occupied slot is acknowledged. -/
theorem C6_theorem (p : Pkt) (st : AState) (h : Reachable st)
    (hnc : IsCorrupted p = false) (hc : 0 < st.windowcount)
    (hin : A_ackInWindow st p.acknum = true)
    (hne : (st.buffer st.windowfirst).seqnum ≠ p.acknum) :
    (A_input p st).1.windowfirst = st.windowfirst ∧
    (A_input p st).1.windowcount = st.windowcount ∧
    (A_input p st).1.timer_running = st.timer_running ∧
    (A_input p st).2 = [] ∧
    (∀ j, findMatch st p.acknum = some j → (A_input p st).1.acked j = true) := by
  have hinv := reachable_AInv h
  have hackedwf : st.acked st.windowfirst = false := hinv.2.2.2.1 hc
  have htr : st.timer_running = true := by
    rw [hinv.2.2.2.2]
    exact decide_eq_true hc
  have ha1 : markAck st.acked (findMatch st p.acknum) st.windowfirst = false := by
    cases hm : findMatch st p.acknum with
    | none => exact hackedwf
    | some j =>
      have hspec := findMatch_spec st p.acknum j hm
      have hjne : st.windowfirst ≠ j := by
        intro hEq
        apply hne
        rw [hEq]
        exact hspec.1
      show Function.update st.acked j true st.windowfirst = false
      rw [Function.update_apply, if_neg hjne]
      exact hackedwf
  have hunfold := A_input_inWindow p st hnc (Nat.pos_iff_ne_zero.mp hc) hin
  have hcore := A_handleAckCore_noslide
    ({ st with total_ACKs_received := st.total_ACKs_received + 1 })
    (markAck st.acked (findMatch st p.acknum)) ha1 htr
  rw [hunfold, hcore]
  refine ⟨rfl, rfl, rfl, rfl, ?_⟩
  intro j hm
  show markAck st.acked (findMatch st p.acknum) j = true
  rw [hm]
  show Function.update st.acked j true j = true
  rw [Function.update_apply, if_pos rfl]

/-- C6, witness: in the reachable two-packet window (seqnums 0 and 1) the
ACK for seqnum 1 marks slot 1 but leaves the window in place. -/
theorem C6_witness :
    Reachable stW2 ∧ IsCorrupted ap1 = false ∧ 0 < stW2.windowcount ∧
      A_ackInWindow stW2 ap1.acknum = true ∧
      (stW2.buffer stW2.windowfirst).seqnum ≠ ap1.acknum ∧
      ((A_input ap1 stW2).1.windowfirst = stW2.windowfirst ∧
        (A_input ap1 stW2).1.windowcount = stW2.windowcount ∧
        (A_input ap1 stW2).1.timer_running = stW2.timer_running ∧
        (A_input ap1 stW2).2 = [] ∧
        (∀ j, findMatch stW2 ap1.acknum = some j →
          (A_input ap1 stW2).1.acked j = true)) :=
  have hr : Reachable stW2 :=
    Reachable.output msg1 stW1 (Reachable.output msg0 A_initState Reachable.init)
  ⟨hr, by decide, by decide, by decide, by decide,
    C6_theorem ap1 stW2 hr (by decide) (by decide) (by decide) (by decide)⟩

/-- C7: for every call to A_output with a full window
(windowcount = WINDOWSIZE) the submission is rejected: the window-full
counter is incremented and nothing else changes — no packet is built or
transmitted, and nextseqnum, windowfirst, windowcount and the buffer are
untouched. -/
theorem C7_theorem (m : Msg) (st : AState) (hfull : st.windowcount = WINDOWSIZE) :
    A_output m st = ({ st with window_full := st.window_full + 1 }, []) := by
  simp only [A_output]
  rw [if_neg (by rw [hfull]; exact lt_irrefl WINDOWSIZE)]

/-- C7, witness: a full-window sender state rejects a new message. -/
theorem C7_witness :
    stAFull.windowcount = WINDOWSIZE ∧
      A_output msg0 stAFull = ({ stAFull with window_full := stAFull.window_full + 1 }, []) :=
  ⟨by decide, C7_theorem msg0 stAFull (by decide)⟩

/-- C8: in every state reachable from A_init by any sequence of A_output,
A_input and A_timerinterrupt calls, the sender's windowcount satisfies
0 ≤ windowcount ≤ WINDOWSIZE. -/
theorem C8_theorem (st : AState) (h : Reachable st) :
    0 ≤ st.windowcount ∧ st.windowcount ≤ WINDOWSIZE :=
  ⟨Nat.zero_le _, (reachable_AInv h).1⟩

/-- C8, witness: the bound holds at a concrete reachable state. -/
theorem C8_witness :
    Reachable stW2 ∧ (0 ≤ stW2.windowcount ∧ stW2.windowcount ≤ WINDOWSIZE) :=
  have hr : Reachable stW2 :=
    Reachable.output msg1 stW1 (Reachable.output msg0 A_initState Reachable.init)
  ⟨hr, C8_theorem stW2 hr⟩

/-- C9: every uncorrupted ACK arriving while the sender window is empty
changes no sender state other than incrementing the received-ACKs counter,
and emits no event: buffer, acked flags, windowfirst, windowcount,
nextseqnum and the timer are all unchanged. -/
theorem C9_theorem (p : Pkt) (st : AState) (hnc : IsCorrupted p = false)
    (h0 : st.windowcount = 0) :
    A_input p st =
      ({ st with total_ACKs_received := st.total_ACKs_received + 1 }, []) :=
  A_input_empty p st hnc h0

/-- C9, witness: an uncorrupted ACK at the freshly initialised sender. -/
theorem C9_witness :
    IsCorrupted ap0 = false ∧ A_initState.windowcount = 0 ∧
      A_input ap0 A_initState =
        ({ A_initState with
            total_ACKs_received := A_initState.total_ACKs_received + 1 }, []) :=
  ⟨by decide, by decide, C9_theorem ap0 A_initState (by decide) (by decide)⟩
